import Mathlib

/-!
Verification development for the Interactive-AI-Debugger-for-Python-Code
repository (five Gradio chat scripts wrapping the Groq chat-completion API).

The embedding models each script's pure turn-handling logic:
  * `Turn` mirrors the Python history entries `[user_message, ai_message]`,
    where the assistant part is `None` (here `none`), `""` (here `some ""`,
    the in-flight sentinel of the streaming variant) or the final text.
  * The external API call is made explicit: each embedded handler takes the
    credential lookup result (`Option String` for `os.environ.get`) and the
    mocked outcome of `client.chat.completions.create` (`ApiResult`,
    `StreamResult` or `GeminiApi`).  A Python exception raised by the call is
    the `raise` constructor; a handler that lets it escape returns an
    `Except.error`, a handler whose `try/except` catches it returns plain
    data.
  * Each handler also reports whether the network call was attempted.
-/

/-- Message roles of the chat-completion wire format. -/
inductive Role
  | system
  | user
  | assistant
deriving DecidableEq, Repr

/-- A wire message `{"role": ..., "content": ...}`. -/
structure Msg where
  role : Role
  content : String
deriving DecidableEq, Repr

/-- A history entry `[user_message, ai_message]` as kept in
`global_chat_history` of app_claude.py / app_gemini2.py / app_gemini3.py
(a pair of the user text and the optional assistant text). -/
abbrev Turn := String × Option String

/-- Python truthiness of the `ai_msg` slot: `None` and `""` are falsy.
Models the `if ai_msg:` checks of the prompt-building loops. -/
def truthyS : Option String → Bool
  | none => false
  | some s => s != ""

/-- Python `str.strip()` restricted to whitespace, written over the
character list so that it evaluates inside the kernel.  Models the
`user_message.strip()` guard of app_gemini3.py line 135. -/
def pyStrip (s : String) : String :=
  ⟨((s.data.dropWhile Char.isWhitespace).reverse.dropWhile Char.isWhitespace).reverse⟩

/-- Python `a or b` for an optional string `a`: used for
`e.message or str(e)` in the GroqError handlers (``None`` and ``""`` fall
through to `str(e)`). -/
def pyOr (m : Option String) (s : String) : String :=
  match m with
  | some x => if x = "" then s else x
  | none => s

/-- Boolean test that the first character list starts the second. -/
def listPrefixB : List Char → List Char → Bool
  | [], _ => true
  | _ :: _, [] => false
  | a :: as, b :: bs => a == b && listPrefixB as bs

/-- Boolean test that the first character list occurs inside the second. -/
def listInfixB (n : List Char) : List Char → Bool
  | [] => listPrefixB n []
  | b :: bs => listPrefixB n (b :: bs) || listInfixB n bs

/-- Python `needle in hay` on strings. -/
def strIn (needle hay : String) : Bool := listInfixB needle.data hay.data

/-- A Python exception coming out of the Groq client call: either a
`GroqError` (carrying `str(e)` and the optional `e.message` attribute) or
any other exception (carrying `str(e)`). -/
inductive PyExn
  | groq (s : String) (msg : Option String)
  | other (s : String)
deriving DecidableEq, Repr

/-- Mocked outcome of a non-streaming `client.chat.completions.create`
call: the reply content, or a raised exception. -/
inductive ApiResult
  | ok (content : String)
  | raise (e : PyExn)
deriving DecidableEq, Repr

/-- Mocked outcome of a streaming `client.chat.completions.create` call:
the list of `chunk.choices[0].delta.content` values (with `None` deltas
modelled as `""`), or a raised exception. -/
inductive StreamResult
  | ok (chunks : List String)
  | raise (e : PyExn)
deriving DecidableEq, Repr

/-- Mocked outcome of the `create` call of app_gemini.py, which passes
`stream=True`: on success the client returns a `Stream` object (the chunk
list), not a completion object. -/
inductive GeminiApi
  | streamOk (chunks : List String)
  | raise (e : PyExn)
deriving DecidableEq, Repr

/-- The model identifier shared by all variants. -/
def GROQ_MODEL_NAME : String := "meta-llama/llama-4-scout-17b-16e-instruct"

/-- The GroqError message construction of app_claude.py lines 82-92,
app_gemini.py lines 60-67 and app_gemini3.py lines 82-88: the base text
uses `e.message or str(e)`, then two substring checks on `str(e).lower()`
append advice lines. -/
def groq_error_message (s : String) (msg : Option String) : String :=
  let error_message := "Groq API Error: " ++ pyOr msg s
  let low := s.toLower
  let error_message :=
    if strIn "authentication" low || strIn "api key" low then
      error_message ++ "\nPlease check if your GROQ_API_KEY is correct and has permissions."
    else error_message
  if strIn "model_not_found" low || (strIn "not found" low && strIn GROQ_MODEL_NAME low) then
    error_message ++ "\nThe model \x27" ++ GROQ_MODEL_NAME ++
      "\x27 might not be available. Please check the model name and your Groq account."
  else error_message

/-- The user-facing text that app_claude.py, app_gemini.py and
app_gemini3.py produce for a caught exception (their `except` branches). -/
def claude_error_text : PyExn → String
  | .groq s m => groq_error_message s m
  | .other s => "An unexpected error occurred: " ++ s

/-- The user-facing text that app_gemini2.py produces for a caught
exception (lines 55-58: plain `str(e)`, no advice lines). -/
def gemini2_error_text : PyExn → String
  | .groq s _ => "Groq API Error: " ++ s
  | .other s => "An unexpected error occurred: " ++ s

/-- One iteration of the prompt-building loop shared verbatim by
app_claude.py lines 57-61, app_gemini.py lines 40-44, app_gemini2.py
lines 40-44 and app_gemini3.py lines 62-63: the user part is emitted if
truthy, then the assistant part if truthy. -/
def emitTurn (t : Turn) : List Msg :=
  (if t.1 != "" then [⟨Role.user, t.1⟩] else []) ++
  (match t.2 with
   | some a => if a != "" then [⟨Role.assistant, a⟩] else []
   | none => [])

/-- Number of messages with the given role. -/
def countRole (r : Role) (ms : List Msg) : Nat :=
  (ms.filter (fun m => m.role == r)).length

/-- Number of non-system messages. -/
def nonSystemCount (ms : List Msg) : Nat :=
  (ms.filter (fun m => m.role != Role.system)).length

/-- Whether a Turn is completed: its assistant slot holds a truthy text
(the falsy sentinels `None`/`""` mark an in-flight Turn). -/
def completedTurn (t : Turn) : Bool := truthyS t.2

/-- Number of completed Turns of a history snapshot. -/
def completedCount (h : List Turn) : Nat := (h.filter completedTurn).length

/-- The role sequence of a message list. -/
def roleList (ms : List Msg) : List Role := ms.map Msg.role

/-- The shape the spec requires of an assembled prompt over `n` completed
Turns: it starts with a system message which is the only one, it ends with
a user message, and it holds `2 * n + 1` non-system messages. -/
def PromptShape (ms : List Msg) (n : Nat) : Prop :=
  (roleList ms).head? = some Role.system ∧
  countRole Role.system ms = 1 ∧
  (roleList ms).getLast? = some Role.user ∧
  nonSystemCount ms = 2 * n + 1

/-- All Turns of the history are completed (the state between handler
invocations of the sequential UI event loop). -/
def settledHistory (h : List Turn) : Bool := h.all completedTurn

/-- The History invariant of the spec: every Turn except possibly the
last is completed. -/
def historyInvariant (h : List Turn) : Bool := h.dropLast.all completedTurn

/-- `global_chat_history[-1][1] = x`: replace the assistant slot of the
last history entry (the Python statement indexes a non-empty list; on `[]`
this model is the identity, a state the scripts never reach). -/
def setLastAssistant : List Turn → String → List Turn
  | [], _ => []
  | [t], s => [(t.1, some s)]
  | t :: t2 :: ts, s => t :: setLastAssistant (t2 :: ts) s

/-- Concatenation of a chunk list. -/
def sjoin : List String → String
  | [] => ""
  | c :: cs => c ++ sjoin cs

/-- Successive values taken by the streaming accumulator of
app_gemini3.py lines 146-151: starting from `acc`, each truthy chunk is
appended and the new value recorded. -/
def accSeq (acc : String) : List String → List String
  | [] => []
  | c :: cs => if c != "" then (acc ++ c) :: accSeq (acc ++ c) cs else accSeq acc cs

/-- The assistant text of the last Turn of a snapshot (`""` for the empty
history or an absent assistant slot). -/
def lastAssistantText (h : List Turn) : String :=
  match h.getLast? with
  | some t => t.2.getD ""
  | none => ""

namespace Claude

/-- The system prompt of app_claude.py lines 38-53. -/
def system_prompt_content : String :=
  "You are an expert Python Code Debugging Assistant.\nA user will provide Python code, and optionally an error message or a description of a problem.\nYour primary tasks are to:\n1.  Carefully analyze the provided Python code.\n2.  If an error message is given, focus on explaining that specific error.\n3.  If no error message is given, try to identify potential bugs, logical errors, or areas for improvement in the code.\n4.  Explain any identified errors or issues in a clear, concise, and step-by-step manner.\n5.  Provide the corrected or improved Python code.\n6.  Ensure the corrected code is well-formatted. Use Markdown for Python code blocks, like this:\n    ```python\n    # your corrected code here\n    print(\"Hello, World!\")\n    ```\n7.  If the query is not about Python code or doesn\x27t contain code, respond as a helpful general assistant.\n8.  Be friendly and encouraging.\n"

/-- The missing-credential text of app_claude.py line 31. -/
def missing_key_message : String :=
  "Error: GROQ_API_KEY environment variable not set. Please set it and restart the application."

/-- The prompt assembly of app_claude.py lines 56-64: a system message,
the truthy-filtered history pairs, then the current user message.
app_gemini.py lines 39-47 are the identical code over its
per-session `chat_history`. -/
def messages_for_api (global_chat_history : List Turn) (user_message : String) : List Msg :=
  ⟨Role.system, system_prompt_content⟩ ::
    global_chat_history.flatMap emitTurn ++ [⟨Role.user, user_message⟩]

/-- Result of one `get_llm_code_explanation` call: the returned text, the
updated `global_chat_history`, and whether the API call was attempted. -/
structure CallResult where
  response : String
  history : List Turn
  networkCalled : Bool
deriving DecidableEq, Repr

/-- app_claude.py lines 21-96: the missing-key early return appends the
error pair (lines 28-33); otherwise the call outcome — reply, caught
GroqError or caught generic exception — is appended as the assistant text
of a new `[user_message, text]` pair and returned. -/
def get_llm_code_explanation (api_key : Option String) (api : ApiResult)
    (user_message : String) (global_chat_history : List Turn) : CallResult :=
  match api_key with
  | none =>
      { response := missing_key_message
        history := global_chat_history ++ [(user_message, some missing_key_message)]
        networkCalled := false }
  | some _ =>
      match api with
      | .ok response_content =>
          { response := response_content
            history := global_chat_history ++ [(user_message, some response_content)]
            networkCalled := true }
      | .raise e =>
          { response := claude_error_text e
            history := global_chat_history ++ [(user_message, some (claude_error_text e))]
            networkCalled := true }

/-- app_claude.py lines 175-179: reset the global history and clear the
chatbot display; the pair is (new global history, returned display). -/
def clear_history (_h : List Turn) : List Turn × List Turn := ([], [])

end Claude

namespace Gemini

/-- The system prompt of app_gemini.py lines 22-37 (textually identical
to the app_claude.py prompt). -/
def system_prompt_content : String := Claude.system_prompt_content

/-- `str(e)` of the AttributeError raised when app_gemini.py line 58
reads `.choices` on the `Stream` object returned for `stream=True`. -/
def stream_attr_error : String := "\x27Stream\x27 object has no attribute \x27choices\x27"

/-- The prompt assembly of app_gemini.py lines 39-47 (same code as
app_claude.py, over the per-session `chat_history`). -/
def messages_for_api (chat_history : List Turn) (user_message : String) : List Msg :=
  ⟨Role.system, system_prompt_content⟩ ::
    chat_history.flatMap emitTurn ++ [⟨Role.user, user_message⟩]

/-- app_gemini.py lines 11-69: returns the text handed to
`gr.ChatInterface` and whether the API was called.  The call passes
`stream=True` (line 55) so a successful call returns a `Stream`; line 58
then reads `chat_completion.choices`, raising an AttributeError that the
generic `except` of line 68 converts to the catch-all text.  Raised
GroqError / generic exceptions are caught as in app_claude.py. -/
def get_llm_code_explanation (api_key : Option String) (api : GeminiApi)
    (_user_message : String) (_chat_history : List Turn) : String × Bool :=
  match api_key with
  | none => (Claude.missing_key_message, false)
  | some _ =>
      match api with
      | .streamOk _ => ("An unexpected error occurred: " ++ stream_attr_error, true)
      | .raise e => (claude_error_text e, true)

end Gemini

namespace Gemini2

/-- The system prompt of app_gemini2.py lines 8-22 (items 1-7 only). -/
def SYSTEM_PROMPT : String :=
  "You are an expert Python Code Debugging Assistant.\nA user will provide Python code, and optionally an error message or a description of a problem.\nYour primary tasks are to:\n1.  Carefully analyze the provided Python code.\n2.  If an error message is given, focus on explaining that specific error.\n3.  If no error message is given, try to identify potential bugs, logical errors, or areas for improvement in the code.\n4.  Explain any identified errors or issues in a clear, concise, and step-by-step manner.\n5.  Provide the corrected or improved Python code.\n6.  Ensure the corrected code is well-formatted. Use Markdown for Python code blocks, like this:\n    ```python\n    # your corrected code here\n    print(\"Hello, World!\")\n    ```\n7.  If the query is not about Python code or doesn\x27t contain code, respond as a helpful general assistant.\n"

/-- The missing-credential text of app_gemini2.py line 35. -/
def missing_key_message : String := "Error: GROQ_API_KEY environment variable not set."

/-- The prompt assembly of app_gemini2.py lines 39-44: a system message
then the truthy-filtered pairs of `history_to_process` (which already
contains the pending `[user_message, None]` entry appended by the
handler). -/
def messages_for_api (history_to_process : List Turn) : List Msg :=
  ⟨Role.system, SYSTEM_PROMPT⟩ :: history_to_process.flatMap emitTurn

/-- app_gemini2.py lines 31-58: missing-key early return, otherwise the
reply content or the caught error text. -/
def call_groq_llm (api_key : Option String) (api : ApiResult)
    (_history_to_process : List Turn) : String × Bool :=
  match api_key with
  | none => (missing_key_message, false)
  | some _ =>
      match api with
      | .ok content => (content, true)
      | .raise e => (gemini2_error_text e, true)

/-- app_gemini2.py lines 80-97: append `[user_message, None]` (no
emptiness guard), yield, call the LLM on a copy of the history, write the
response into the last entry, yield again.  Returns (the yielded
(textbox, history) pairs, the final global history, whether the API was
called). -/
def handle_user_submission (api_key : Option String) (api : ApiResult)
    (global_chat_history : List Turn) (user_message : String) :
    List (String × List Turn) × List Turn × Bool :=
  let h1 := global_chat_history ++ [(user_message, none)]
  let r := call_groq_llm api_key api h1
  let h2 := setLastAssistant h1 r.1
  ([("", h1), ("", h2)], h2, r.2)

/-- app_gemini2.py lines 105-111: reset the global history, return the
empty chatbot display. -/
def clear_chat (_h : List Turn) : List Turn × List Turn := ([], [])

end Gemini2

namespace Gemini3

/-- The system prompt of app_gemini3.py lines 9-24 (items 1-8). -/
def SYSTEM_PROMPT : String :=
  "You are an expert Python Code Debugging Assistant.\nA user will provide Python code, and optionally an error message or a description of a problem.\nYour primary tasks are to:\n1.  Carefully analyze the provided Python code.\n2.  If an error message is given, focus on explaining that specific error.\n3.  If no error message is given, try to identify potential bugs, logical errors, or areas for improvement in the code.\n4.  Explain any identified errors or issues in a clear, concise, and step-by-step manner.\n5.  Provide the corrected or improved Python code.\n6.  Ensure the corrected code is well-formatted. Use Markdown for Python code blocks, like this:\n    ```python\n    # your corrected code here\n    print(\"Hello, World!\")\n    ```\n7.  If the query is not about Python code or doesn\x27t contain code, respond as a helpful general assistant.\n8.  Be friendly and encouraging.\n"

/-- The missing-credential text of app_gemini3.py line 39. -/
def missing_key_message : String :=
  "Error: GROQ_API_KEY environment variable not set. Please set it and restart the application."

/-- The prompt assembly actually sent by app_gemini3.py lines 60-66
(`api_messages_for_llm`; the earlier loop of lines 44-57 builds an unused
list and is dead code): a system message, the truthy-filtered pairs of
all history entries but the last, then the last entry's user text if
truthy. -/
def api_messages_for_llm (history_to_process : List Turn) : List Msg :=
  let base := ⟨Role.system, SYSTEM_PROMPT⟩ ::
    history_to_process.dropLast.flatMap emitTurn
  match history_to_process.getLast? with
  | some t => if t.1 != "" then base ++ [⟨Role.user, t.1⟩] else base
  | none => base

/-- app_gemini3.py lines 33-90, as the list of yielded chunks plus the
network flag: the missing-key text is yielded (lines 37-40); a successful
stream yields its truthy delta contents (lines 78-81); a raised exception
is caught and its user-facing text yielded (lines 82-90). -/
def call_groq_llm_stream (api_key : Option String) (api : StreamResult)
    (_history_to_process : List Turn) : List String × Bool :=
  match api_key with
  | none => ([missing_key_message], false)
  | some _ =>
      match api with
      | .ok chunks => (chunks.filter (fun c => c != ""), true)
      | .raise e => ([claude_error_text e], true)

/-- The chunk-consumption loop of app_gemini3.py lines 146-153: each
truthy chunk extends the accumulator, overwrites the assistant slot of
the last history entry and yields.  Returns (yielded (textbox, history)
pairs, final history). -/
def stream_loop : List Turn → String → List String → List (String × List Turn) × List Turn
  | h, _, [] => ([], h)
  | h, acc, c :: cs =>
      if c != "" then
        let acc' := acc ++ c
        let h' := setLastAssistant h acc'
        let r := stream_loop h' acc' cs
        (("", h') :: r.1, r.2)
      else stream_loop h acc cs

/-- The body of app_gemini3.py lines 129-156 given the chunk sequence the
stream call produces: the blank-input guard (line 135), the append of
`[user_message, ""]` (line 140) with its yield, the chunk loop, and the
final yield (line 156). -/
def handle_chunks (global_chat_history : List Turn) (user_message : String)
    (chunks : List String) : List (String × List Turn) × List Turn :=
  if pyStrip user_message = "" then
    ([("", global_chat_history)], global_chat_history)
  else
    let h1 := global_chat_history ++ [(user_message, some "")]
    let r := stream_loop h1 "" chunks
    (("", h1) :: (r.1 ++ [("", r.2)]), r.2)

/-- app_gemini3.py lines 129-156 composed with the stream call of line
147: on blank input nothing is called; otherwise the chunks produced by
`call_groq_llm_stream` on the appended history are consumed. -/
def handle_user_submission (api_key : Option String) (api : StreamResult)
    (global_chat_history : List Turn) (user_message : String) :
    (List (String × List Turn) × List Turn) × Bool :=
  if pyStrip user_message = "" then
    (handle_chunks global_chat_history user_message [], false)
  else
    let h1 := global_chat_history ++ [(user_message, some "")]
    let s := call_groq_llm_stream api_key api h1
    (handle_chunks global_chat_history user_message s.1, s.2)

/-- app_gemini3.py lines 165-171: reset the global history, return the
empty chatbot display. -/
def clear_chat (_h : List Turn) : List Turn × List Turn := ([], [])

end Gemini3

namespace Grok

/-- The key hardcoded at app_grok.py line 5; the environment is never
consulted in this variant. -/
def api_key : String := "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"

/-- The initial `global_history` of app_grok.py lines 9-11. -/
def global_history_init : List Msg := [⟨Role.system, "You are a helpful assistant."⟩]

/-- The Gradio-format conversion of app_grok.py lines 31-38: indices
1, 3, 5, ... of the message list paired with their successors. -/
def gradio_pairs : List Msg → List (String × Option String)
  | [] => []
  | [m] => [(m.content, none)]
  | m :: n :: rest => (m.content, some n.content) :: gradio_pairs rest

/-- Result of one `respond` call: the updated `global_history`, the value
the handler produces — `Except.error` models a Python exception escaping
the function, there being no `try/except` in app_grok.py — and whether
the API call was attempted. -/
structure RespondResult where
  global_history : List Msg
  outcome : Except PyExn (List (String × Option String))
  networkCalled : Bool

/-- app_grok.py lines 13-40: append the user message, call the API with
the hardcoded key (always attempted, no credential check, no exception
handler), then append the assistant reply and return the converted
history; a raised exception escapes after the user append. -/
def respond (global_history : List Msg) (message : String) (api : ApiResult) : RespondResult :=
  let h1 := global_history ++ [⟨Role.user, message⟩]
  match api with
  | .ok bot_message =>
      let h2 := h1 ++ [⟨Role.assistant, bot_message⟩]
      { global_history := h2
        outcome := .ok (gradio_pairs (h2.drop 1))
        networkCalled := true }
  | .raise e =>
      { global_history := h1
        outcome := .error e
        networkCalled := true }

end Grok

/-! ## Helper lemmas -/

/-- Appending anything to a non-empty string stays non-empty. -/
theorem str_append_ne_empty_left (a b : String) (ha : a ≠ "") : a ++ b ≠ "" := by
  intro hc
  have hd := congrArg String.data hc
  rw [String.data_append] at hd
  rcases List.append_eq_nil.mp hd with ⟨h1, _⟩
  exact ha (by cases a; simp_all)

/-- The GroqError text always starts with a non-empty prefix. -/
theorem groq_error_message_ne_empty (s : String) (m : Option String) :
    groq_error_message s m ≠ "" := by
  unfold groq_error_message
  dsimp only
  split_ifs <;>
    · repeat apply str_append_ne_empty_left
      decide

/-- The caught-exception text of the claude/gemini/gemini3 variants is
never empty. -/
theorem claude_error_text_ne_empty (e : PyExn) : claude_error_text e ≠ "" := by
  cases e with
  | groq s m => exact groq_error_message_ne_empty s m
  | other s => exact str_append_ne_empty_left _ _ (by decide)

/-- Writing the last assistant slot of a history that ends in a known
entry rewrites just that entry. -/
theorem setLastAssistant_concat (h : List Turn) (u : String) (a : Option String) (s : String) :
    setLastAssistant (h ++ [(u, a)]) s = h ++ [(u, some s)] := by
  induction h with
  | nil => rfl
  | cons t ts ih =>
    cases ts with
    | nil => rfl
    | cons t2 ts2 =>
      simp only [List.cons_append] at ih ⊢
      show t :: setLastAssistant (t2 :: (ts2 ++ [(u, a)])) s = _
      rw [ih]

/-- Writing the last assistant slot does not touch the earlier entries. -/
theorem setLastAssistant_dropLast (h : List Turn) (s : String) :
    (setLastAssistant h s).dropLast = h.dropLast := by
  induction h with
  | nil => rfl
  | cons t ts ih =>
    cases ts with
    | nil => rfl
    | cons t2 ts2 =>
      have hne : setLastAssistant (t2 :: ts2) s ≠ [] := by
        cases ts2 <;> simp [setLastAssistant]
      show (t :: setLastAssistant (t2 :: ts2) s).dropLast = (t :: t2 :: ts2).dropLast
      rw [List.dropLast_cons_of_ne_nil hne, ih,
        List.dropLast_cons_of_ne_nil (List.cons_ne_nil t2 ts2)]

/-- The last assistant text of a history ending in a known entry. -/
theorem lastAssistantText_concat (h : List Turn) (w x : String) :
    lastAssistantText (h ++ [(w, some x)]) = x := by
  simp [lastAssistantText, List.getLast?_concat]

/-- Final history of the streaming loop: the last entry's assistant slot
ends up holding the accumulator extended by the concatenation of the
chunks. -/
theorem stream_loop_final (cs : List String) (hh : List Turn) (w acc : String) :
    (Gemini3.stream_loop (hh ++ [(w, some acc)]) acc cs).2
      = hh ++ [(w, some (acc ++ sjoin cs))] := by
  induction cs generalizing acc with
  | nil => simp [Gemini3.stream_loop, sjoin]
  | cons c cs ih =>
    by_cases hc : c = ""
    · subst hc
      simpa [Gemini3.stream_loop, sjoin] using ih acc
    · have hb : (c != "") = true := by simpa using hc
      simp only [Gemini3.stream_loop, hb, if_true, setLastAssistant_concat]
      rw [ih (acc ++ c)]
      simp [sjoin, String.append_assoc]

/-- Observed last-assistant values across the streaming loop's yields. -/
theorem stream_loop_observed (cs : List String) (hh : List Turn) (w acc : String) :
    ((Gemini3.stream_loop (hh ++ [(w, some acc)]) acc cs).1).map
        (fun y => lastAssistantText y.2)
      = accSeq acc cs := by
  induction cs generalizing acc with
  | nil => rfl
  | cons c cs ih =>
    by_cases hc : c = ""
    · subst hc
      simpa [Gemini3.stream_loop, accSeq] using ih acc
    · have hb : (c != "") = true := by simpa using hc
      simp only [Gemini3.stream_loop, hb, if_true, setLastAssistant_concat, accSeq,
        List.map_cons, lastAssistantText_concat]
      rw [ih (acc ++ c)]

/-- Counting a role distributes over list append. -/
theorem countRole_append (r : Role) (a b : List Msg) :
    countRole r (a ++ b) = countRole r a + countRole r b := by
  simp [countRole, List.filter_append]

/-- Counting non-system messages distributes over list append. -/
theorem nonSystemCount_append (a b : List Msg) :
    nonSystemCount (a ++ b) = nonSystemCount a + nonSystemCount b := by
  simp [nonSystemCount, List.filter_append]

/-- A truthy assistant slot holds a non-empty text. -/
theorem truthyS_iff (o : Option String) :
    truthyS o = true ↔ ∃ a, o = some a ∧ a ≠ "" := by
  cases o <;> simp [truthyS]

/-- A completed Turn with non-empty user text emits exactly its
user/assistant message pair. -/
theorem emitTurn_eq (u a : String) (hu : u ≠ "") (ha : a ≠ "") :
    emitTurn (u, some a) = [⟨Role.user, u⟩, ⟨Role.assistant, a⟩] := by
  simp [emitTurn, hu, ha]

/-- Over a history of completed Turns with non-empty user texts, the
prompt-building loop emits no system message and two messages per Turn. -/
theorem flatMap_counts (h : List Turn)
    (hall : ∀ t ∈ h, t.1 ≠ "" ∧ truthyS t.2 = true) :
    countRole Role.system (h.flatMap emitTurn) = 0 ∧
    nonSystemCount (h.flatMap emitTurn) = 2 * h.length := by
  induction h with
  | nil => exact ⟨rfl, rfl⟩
  | cons t ts ih =>
    obtain ⟨hu, htr⟩ := hall t (List.mem_cons_self t ts)
    obtain ⟨a, hsome, ha⟩ := (truthyS_iff t.2).mp htr
    obtain ⟨iht1, iht2⟩ := ih (fun x hx => hall x (List.mem_cons_of_mem t hx))
    have hpair : emitTurn t = [⟨Role.user, t.1⟩, ⟨Role.assistant, a⟩] := by
      obtain ⟨u, o⟩ := t
      simp only at hsome hu
      rw [hsome]
      exact emitTurn_eq u a hu ha
    rw [List.flatMap_cons, countRole_append, nonSystemCount_append, hpair,
      iht1, iht2, List.length_cons]
    refine ⟨rfl, ?_⟩
    show 2 + 2 * ts.length = 2 * (ts.length + 1)
    omega

/-- Core shape lemma: a system message, then completed-Turn pairs, then
one trailing user message has the spec's prompt shape. -/
theorem promptShape_core (h : List Turn) (p sysc : String)
    (hall : ∀ t ∈ h, t.1 ≠ "" ∧ truthyS t.2 = true) :
    PromptShape (⟨Role.system, sysc⟩ :: (h.flatMap emitTurn ++ [⟨Role.user, p⟩]))
      h.length := by
  obtain ⟨hsys, hnon⟩ := flatMap_counts h hall
  refine ⟨rfl, ?_, ?_, ?_⟩
  · show countRole Role.system
        ([⟨Role.system, sysc⟩] ++ (h.flatMap emitTurn ++ [⟨Role.user, p⟩])) = 1
    rw [countRole_append, countRole_append, hsys]
    rfl
  · show (roleList ((⟨Role.system, sysc⟩ :: h.flatMap emitTurn) ++ [⟨Role.user, p⟩])).getLast?
        = some Role.user
    rw [roleList, List.map_append]
    exact List.getLast?_concat _
  · show nonSystemCount
        ([⟨Role.system, sysc⟩] ++ (h.flatMap emitTurn ++ [⟨Role.user, p⟩])) = 2 * h.length + 1
    rw [nonSystemCount_append, nonSystemCount_append, hnon]
    show 0 + (2 * h.length + 1) = 2 * h.length + 1
    omega

/-- The accumulator sequence is a chain under string extension. -/
theorem chain'_accSeq (cs : List String) (acc : String) :
    List.Chain' (fun a b => ∃ t, b = a ++ t) (acc :: accSeq acc cs) := by
  induction cs generalizing acc with
  | nil => simp [accSeq]
  | cons c cs ih =>
    by_cases hc : c = ""
    · subst hc
      simpa [accSeq] using ih acc
    · have hb : (c != "") = true := by simpa using hc
      simp only [accSeq, hb, if_true]
      exact List.chain'_cons.mpr ⟨⟨c, rfl⟩, ih (acc ++ c)⟩

/-- The last observed accumulator value is the full concatenation. -/
theorem getLast?_accSeq (cs : List String) (acc : String) :
    (acc :: accSeq acc cs).getLast? = some (acc ++ sjoin cs) := by
  induction cs generalizing acc with
  | nil => simp [accSeq, sjoin]
  | cons c cs ih =>
    by_cases hc : c = ""
    · subst hc
      rw [show accSeq acc ("" :: cs) = accSeq acc cs from by simp [accSeq]]
      rw [ih acc]
      simp [sjoin]
    · have hb : (c != "") = true := by simpa using hc
      simp only [accSeq, hb, if_true, List.getLast?_cons_cons]
      rw [ih (acc ++ c)]
      simp [sjoin, String.append_assoc]

/-! ## Claim theorems -/

/-- C9: for every prior History state, the clear operation of
app_claude.py (`clear_history`), app_gemini2.py (`clear_chat`) and
app_gemini3.py (`clear_chat`) yields an empty History and an empty
chatbot display, regardless of how many Turns the history held or whether
the last Turn was complete. -/
theorem clear_resets_history (h : List Turn) :
    Claude.clear_history h = ([], []) ∧
    Gemini2.clear_chat h = ([], []) ∧
    Gemini3.clear_chat h = ([], []) :=
  ⟨rfl, rfl, rfl⟩

/-- C2 counterexample: the submission handler of app_gemini2.py has no
emptiness guard — submitting the empty string to an empty History appends
a Turn, so the History length changes from 0 to 1 and the claimed no-op
fails in that variant. -/
theorem gemini2_empty_submission_appends :
    (Gemini2.handle_user_submission (some "k") (.ok "resp") [] "").2.1
      = [("", some "resp")] := rfl

/-- C2 (amended): in the app_gemini3.py variant, submitting empty or
whitespace-only input is a no-op — the handler yields the unchanged
History, appends nothing and attempts no call. -/
theorem gemini3_blank_submission_noop (api_key : Option String) (api : StreamResult)
    (h : List Turn) (u : String) (hu : pyStrip u = "") :
    Gemini3.handle_user_submission api_key api h u = (([("", h)], h), false) := by
  unfold Gemini3.handle_user_submission
  rw [if_pos hu]
  unfold Gemini3.handle_chunks
  rw [if_pos hu]

/-- Witness for `gemini3_blank_submission_noop` at a concrete
whitespace-only input. -/
theorem gemini3_blank_submission_noop_witness :
    Gemini3.handle_user_submission none (.ok ["x"]) [("a", some "b")] "   "
      = (([("", [("a", some "b")])], [("a", some "b")]), false) :=
  gemini3_blank_submission_noop none (.ok ["x"]) [("a", some "b")] "   " (by decide)

/-- C10: in the prompt-assembly loop of app_claude.py and app_gemini.py,
a history Turn with empty (falsy) `user_text` contributes no user message
while its non-empty `assistant_text` is still emitted: on the snapshot
`[("q1", "a1"), ("", "a2")]` (which satisfies the History invariant) the
assembled list has two consecutive assistant messages and holds 4
non-system messages instead of `2 * 2 + 1`. -/
theorem blank_user_turn_skipped_in_prompt :
    Claude.messages_for_api [("q1", some "a1"), ("", some "a2")] "next"
      = [⟨Role.system, Claude.system_prompt_content⟩, ⟨Role.user, "q1"⟩,
         ⟨Role.assistant, "a1"⟩, ⟨Role.assistant, "a2"⟩, ⟨Role.user, "next"⟩] ∧
    Gemini.messages_for_api [("q1", some "a1"), ("", some "a2")] "next"
      = [⟨Role.system, Gemini.system_prompt_content⟩, ⟨Role.user, "q1"⟩,
         ⟨Role.assistant, "a1"⟩, ⟨Role.assistant, "a2"⟩, ⟨Role.user, "next"⟩] ∧
    historyInvariant [("q1", some "a1"), ("", some "a2")] = true ∧
    completedCount [("q1", some "a1"), ("", some "a2")] = 2 ∧
    nonSystemCount (Claude.messages_for_api [("q1", some "a1"), ("", some "a2")] "next") = 4 ∧
    4 ≠ 2 * 2 + 1 :=
  ⟨rfl, rfl, rfl, rfl, rfl, by decide⟩

/-- C1 counterexample: two history snapshots that satisfy the History
invariant but break the claimed count `2 * completed + 1` of non-system
messages in the assembled prompt of app_claude.py — one holding a
completed Turn with empty `user_text`, one holding a single incomplete
Turn. -/
theorem prompt_assembly_shape_fails_on_blank_user :
    (historyInvariant [("", some "hello")] = true ∧
      completedCount [("", some "hello")] = 1 ∧
      nonSystemCount (Claude.messages_for_api [("", some "hello")] "hi") = 2 ∧
      2 ≠ 2 * 1 + 1) ∧
    (historyInvariant [("what is x", none)] = true ∧
      completedCount [("what is x", none)] = 0 ∧
      nonSystemCount (Claude.messages_for_api [("what is x", none)] "hi") = 2 ∧
      2 ≠ 2 * 0 + 1) :=
  ⟨⟨rfl, rfl, rfl, by decide⟩, ⟨rfl, rfl, rfl, by decide⟩⟩

/-- C1 (amended): over a snapshot whose Turns are all completed and all
have non-empty `user_text` — the state the assemblers actually receive
between settled turns — the assembled message list starts with exactly
one system message, ends with a user message, and holds
`2 * (number of completed Turns) + 1` non-system messages, in all three
assemblers: app_claude.py / app_gemini.py (pending text appended last),
app_gemini2.py (pending Turn `[u, None]` already appended to the history),
and app_gemini3.py (`api_messages_for_llm` over the history ending in the
pending Turn `[u, ""]`). -/
theorem prompt_assembly_shape (h : List Turn) (p u : String)
    (hall : ∀ t ∈ h, t.1 ≠ "" ∧ truthyS t.2 = true) (hu : u ≠ "") :
    PromptShape (Claude.messages_for_api h p) h.length ∧
    PromptShape (Gemini2.messages_for_api (h ++ [(u, none)])) h.length ∧
    PromptShape (Gemini3.api_messages_for_llm (h ++ [(u, some "")])) h.length := by
  refine ⟨promptShape_core h p _ hall, ?_, ?_⟩
  · have h2 : Gemini2.messages_for_api (h ++ [(u, none)])
        = ⟨Role.system, Gemini2.SYSTEM_PROMPT⟩ ::
            (h.flatMap emitTurn ++ [⟨Role.user, u⟩]) := by
      unfold Gemini2.messages_for_api
      rw [List.flatMap_append]
      simp [emitTurn, hu]
    rw [h2]
    exact promptShape_core h u _ hall
  · have h3 : Gemini3.api_messages_for_llm (h ++ [(u, some "")])
        = ⟨Role.system, Gemini3.SYSTEM_PROMPT⟩ ::
            (h.flatMap emitTurn ++ [⟨Role.user, u⟩]) := by
      unfold Gemini3.api_messages_for_llm
      rw [List.dropLast_concat, List.getLast?_concat]
      simp [hu]
    rw [h3]
    exact promptShape_core h u _ hall

/-- Witness for `prompt_assembly_shape` at a one-Turn settled snapshot. -/
theorem prompt_assembly_shape_witness :
    PromptShape (Claude.messages_for_api [("q", some "a")] "next") 1 ∧
    PromptShape (Gemini2.messages_for_api ([("q", some "a")] ++ [("more", none)])) 1 :=
  ⟨(prompt_assembly_shape [("q", some "a")] "next" "more" (by decide) (by decide)).1,
   (prompt_assembly_shape [("q", some "a")] "next" "more" (by decide) (by decide)).2.1⟩

/-- On non-blank input the chunk consumer finalizes the appended Turn
with the concatenation of the chunks as its assistant text. -/
theorem handle_chunks_final (h : List Turn) (u : String) (chunks : List String)
    (hu : pyStrip u ≠ "") :
    (Gemini3.handle_chunks h u chunks).2 = h ++ [(u, some ("" ++ sjoin chunks))] := by
  unfold Gemini3.handle_chunks
  rw [if_neg hu]
  exact stream_loop_final chunks h u ""

/-- On non-blank input the app_gemini3.py handler is the chunk consumer
applied to the output of the stream call on the appended history. -/
theorem handle_user_submission_eq (api_key : Option String) (sapi : StreamResult)
    (h : List Turn) (u : String) (hu : pyStrip u ≠ "") :
    Gemini3.handle_user_submission api_key sapi h u
      = (Gemini3.handle_chunks h u
           (Gemini3.call_groq_llm_stream api_key sapi (h ++ [(u, some "")])).1,
         (Gemini3.call_groq_llm_stream api_key sapi (h ++ [(u, some "")])).2) := by
  unfold Gemini3.handle_user_submission
  rw [if_neg hu]

/-- C6 counterexample: the input `" "` is non-empty, yet the
app_gemini3.py handler strips it to `""` and appends nothing — the final
History is still empty rather than one Turn longer. -/
theorem gemini3_whitespace_submission_no_append :
    (Gemini3.handle_user_submission (some "k") (.ok ["Hello"]) [] " ").1.2 = [] ∧
    (" " : String) ≠ "" :=
  ⟨rfl, by decide⟩

/-- C6 (amended): for every input whose whitespace-stripped form is
non-empty and every prior History, submission appends exactly one Turn
whose `user_text` equals the input — in the app_claude.py, app_gemini2.py
and app_gemini3.py handlers, for every credential state and every call
outcome. -/
theorem submission_appends_one_turn (api_key : Option String) (api : ApiResult)
    (sapi : StreamResult) (h : List Turn) (u : String) (hu : pyStrip u ≠ "") :
    ((Claude.get_llm_code_explanation api_key api u h).history.length = h.length + 1 ∧
      (Claude.get_llm_code_explanation api_key api u h).history.getLast?.map Prod.fst
        = some u) ∧
    ((Gemini2.handle_user_submission api_key api h u).2.1.length = h.length + 1 ∧
      (Gemini2.handle_user_submission api_key api h u).2.1.getLast?.map Prod.fst
        = some u) ∧
    ((Gemini3.handle_user_submission api_key sapi h u).1.2.length = h.length + 1 ∧
      (Gemini3.handle_user_submission api_key sapi h u).1.2.getLast?.map Prod.fst
        = some u) := by
  have hcl : ∃ x, (Claude.get_llm_code_explanation api_key api u h).history
      = h ++ [(u, some x)] := by
    cases api_key with
    | none => exact ⟨_, rfl⟩
    | some k =>
      cases api with
      | ok c => exact ⟨c, rfl⟩
      | raise e => exact ⟨_, rfl⟩
  have hg2 : (Gemini2.handle_user_submission api_key api h u).2.1
      = h ++ [(u, some (Gemini2.call_groq_llm api_key api (h ++ [(u, none)])).1)] := by
    unfold Gemini2.handle_user_submission
    dsimp only
    exact setLastAssistant_concat h u none _
  have hg3 : (Gemini3.handle_user_submission api_key sapi h u).1.2
      = h ++ [(u, some ("" ++ sjoin
          (Gemini3.call_groq_llm_stream api_key sapi (h ++ [(u, some "")])).1))] := by
    rw [handle_user_submission_eq api_key sapi h u hu]
    exact handle_chunks_final h u _ hu
  obtain ⟨x, hx⟩ := hcl
  refine ⟨?_, ?_, ?_⟩
  · rw [hx]
    simp [List.getLast?_concat]
  · rw [hg2]
    simp [List.getLast?_concat]
  · rw [hg3]
    simp [List.getLast?_concat]

/-- Witness for `submission_appends_one_turn`: the app_claude.py part at
a concrete submission. -/
theorem submission_appends_one_turn_witness :
    (Claude.get_llm_code_explanation none (.ok "r") "hi" []).history.length
        = ([] : List Turn).length + 1 ∧
    (Claude.get_llm_code_explanation none (.ok "r") "hi" []).history.getLast?.map Prod.fst
        = some "hi" :=
  (submission_appends_one_turn none (.ok "r") (.ok []) [] "hi" (by decide)).1

/-- C7: the History operations preserve the invariant that every Turn
except possibly the last is completed: appending the pending Turn
(`[u, None]` in app_gemini2.py, `[u, ""]` in app_gemini3.py) from a
settled state, overwriting the last assistant slot (the non-streaming
write and the per-chunk streaming write, both `setLastAssistant`), and
the whole app_claude.py call, which appends an already-completed pair. -/
theorem history_ops_preserve_invariant (h : List Turn) (u s : String)
    (api_key : Option String) (api : ApiResult) :
    (settledHistory h = true → historyInvariant (h ++ [(u, none)]) = true) ∧
    (settledHistory h = true → historyInvariant (h ++ [(u, some "")]) = true) ∧
    (historyInvariant h = true → historyInvariant (setLastAssistant h s) = true) ∧
    (settledHistory h = true →
      historyInvariant (Claude.get_llm_code_explanation api_key api u h).history = true) := by
  have happ : ∀ (t : Turn), settledHistory h = true →
      historyInvariant (h ++ [t]) = true := by
    intro t hs
    unfold historyInvariant
    rw [List.dropLast_concat]
    exact hs
  refine ⟨happ _, happ _, ?_, ?_⟩
  · intro hi
    unfold historyInvariant at hi ⊢
    rw [setLastAssistant_dropLast]
    exact hi
  · intro hs
    cases api_key with
    | none => exact happ _ hs
    | some k =>
      cases api with
      | ok c => exact happ _ hs
      | raise e => exact happ _ hs

/-- Witness for `history_ops_preserve_invariant` at a settled one-Turn
history. -/
theorem history_ops_preserve_invariant_witness :
    historyInvariant ([("a", some "r")] ++ [("b", (none : Option String))]) = true :=
  (history_ops_preserve_invariant [("a", some "r")] "b" "x" none (.ok "c")).1 (by decide)

/-- C3 counterexample: app_grok.py's `respond` has no `try/except` — a
raised transport error escapes the handler (`Except.error`), the user
message has been appended but no assistant slot holds any error text. -/
theorem grok_respond_propagates_error :
    (Grok.respond Grok.global_history_init "hi" (.raise (.other "connection refused"))).outcome
      = Except.error (PyExn.other "connection refused") ∧
    (Grok.respond Grok.global_history_init "hi"
        (.raise (.other "connection refused"))).global_history
      = [⟨Role.system, "You are a helpful assistant."⟩, ⟨Role.user, "hi"⟩] ∧
    (Grok.respond Grok.global_history_init "hi"
        (.raise (.other "connection refused"))).networkCalled = true :=
  ⟨rfl, rfl, rfl⟩

/-- C3 (amended): in app_claude.py, app_gemini.py, app_gemini2.py and
app_gemini3.py every exception raised by the inference call is caught at
the client boundary and converted to a user-facing text stored in the
assistant slot of the current Turn (returned to the framework for
app_gemini.py); no error escapes those handlers.  app_grok.py is the
exception — see `grok_respond_propagates_error`. -/
theorem errors_written_to_assistant_slot (k : String) (e : PyExn) (u : String)
    (h : List Turn) (hu : pyStrip u ≠ "") :
    (Claude.get_llm_code_explanation (some k) (.raise e) u h).history
      = h ++ [(u, some (claude_error_text e))] ∧
    (Gemini.get_llm_code_explanation (some k) (.raise e) u h).1 = claude_error_text e ∧
    (Gemini2.handle_user_submission (some k) (.raise e) h u).2.1
      = h ++ [(u, some (gemini2_error_text e))] ∧
    (Gemini3.handle_user_submission (some k) (.raise e) h u).1.2
      = h ++ [(u, some (claude_error_text e))] := by
  refine ⟨rfl, rfl, ?_, ?_⟩
  · unfold Gemini2.handle_user_submission
    dsimp only
    exact setLastAssistant_concat h u none _
  · rw [handle_user_submission_eq (some k) (.raise e) h u hu]
    show (Gemini3.handle_chunks h u [claude_error_text e]).2 = _
    rw [handle_chunks_final h u [claude_error_text e] hu]
    simp [sjoin]

/-- Witness for `errors_written_to_assistant_slot` at a concrete raised
exception. -/
theorem errors_written_to_assistant_slot_witness :
    (Claude.get_llm_code_explanation (some "k") (.raise (.other "boom")) "hi" []).history
      = [("hi", some (claude_error_text (.other "boom")))] :=
  (errors_written_to_assistant_slot "k" (.other "boom") "hi" [] (by decide)).1

/-- C5 counterexample: app_grok.py never reads the environment — its key
is hardcoded, so with `GROQ_API_KEY` unset (the model takes no credential
input at all) submitting still attempts the network call and the recorded
reply is the model output, not any MissingCredential text. -/
theorem grok_ignores_missing_credential :
    (Grok.respond Grok.global_history_init "hi" (.ok "Sure.")).networkCalled = true ∧
    (Grok.respond Grok.global_history_init "hi" (.ok "Sure.")).global_history.getLast?
      = some ⟨Role.assistant, "Sure."⟩ ∧
    ("Sure." : String) ≠ Claude.missing_key_message ∧
    ("Sure." : String) ≠ Gemini2.missing_key_message :=
  ⟨rfl, rfl, by decide, by decide⟩

/-- C5 (amended): in the four environment-reading variants, with the
credential absent (`os.environ.get` returning `None`) every submission
yields that variant's fixed missing-credential text in the assistant slot
(or as the returned reply for app_gemini.py) and no network call is
attempted, whatever the mocked call outcome would have been. -/
theorem missing_credential_no_call (api : ApiResult) (sapi : StreamResult)
    (gapi : GeminiApi) (u : String) (h : List Turn) (hu : pyStrip u ≠ "") :
    ((Claude.get_llm_code_explanation none api u h).networkCalled = false ∧
      (Claude.get_llm_code_explanation none api u h).history
        = h ++ [(u, some Claude.missing_key_message)]) ∧
    Gemini.get_llm_code_explanation none gapi u h = (Claude.missing_key_message, false) ∧
    ((Gemini2.handle_user_submission none api h u).2.2 = false ∧
      (Gemini2.handle_user_submission none api h u).2.1
        = h ++ [(u, some Gemini2.missing_key_message)]) ∧
    ((Gemini3.handle_user_submission none sapi h u).2 = false ∧
      (Gemini3.handle_user_submission none sapi h u).1.2
        = h ++ [(u, some Gemini3.missing_key_message)]) := by
  refine ⟨⟨rfl, rfl⟩, rfl, ⟨rfl, ?_⟩, ⟨?_, ?_⟩⟩
  · unfold Gemini2.handle_user_submission
    dsimp only
    exact setLastAssistant_concat h u none _
  · rw [handle_user_submission_eq none sapi h u hu]
    rfl
  · rw [handle_user_submission_eq none sapi h u hu]
    show (Gemini3.handle_chunks h u [Gemini3.missing_key_message]).2 = _
    rw [handle_chunks_final h u [Gemini3.missing_key_message] hu]
    simp [sjoin]

/-- Witness for `missing_credential_no_call`: the app_claude.py part at a
concrete submission with the credential absent. -/
theorem missing_credential_no_call_witness :
    (Claude.get_llm_code_explanation none (.ok "x") "hi" []).networkCalled = false ∧
    (Claude.get_llm_code_explanation none (.ok "x") "hi" []).history
      = [("hi", some Claude.missing_key_message)] :=
  (missing_credential_no_call (.ok "x") (.ok ["x"]) (.streamOk ["x"]) "hi" [] (by decide)).1

/-- C4: app_gemini.py requests a streamed response (`stream=True`) but
reads `.choices[0].message.content` on the returned `Stream`, so for the
mocked streamed output `["Missing closing ", "parenthesis."]` it yields
the catch-all AttributeError text instead of the chunk concatenation; the
streaming consumer of app_gemini3.py stores exactly the concatenation
`"Missing closing parenthesis."`, which equals what the non-streaming
app_gemini2.py records for the same mocked model output. -/
theorem gemini_stream_misuse_yields_error_text :
    Gemini.get_llm_code_explanation (some "k")
        (.streamOk ["Missing closing ", "parenthesis."]) "fix this: print(x" []
      = ("An unexpected error occurred: " ++ Gemini.stream_attr_error, true) ∧
    (Gemini3.handle_chunks [] "fix this: print(x" ["Missing closing ", "parenthesis."]).2
      = [("fix this: print(x", some "Missing closing parenthesis.")] ∧
    (Gemini2.handle_user_submission (some "k") (.ok "Missing closing parenthesis.")
        [] "fix this: print(x").2.1
      = [("fix this: print(x", some "Missing closing parenthesis.")] ∧
    ("An unexpected error occurred: " ++ Gemini.stream_attr_error)
      ≠ "Missing closing parenthesis." :=
  ⟨rfl, rfl, rfl, by decide⟩

/-- C8: during a streaming Turn of app_gemini3.py, the assistant text of
the last Turn grows monotonically: across all yielded states, each
previously observed value is a prefix (in the sense of string append) of
the next, up to and including the finalizing yield. -/
theorem streaming_assistant_monotone (h : List Turn) (u : String) (chunks : List String)
    (hu : pyStrip u ≠ "") :
    List.Chain' (fun a b => ∃ t, b = a ++ t)
      (((Gemini3.handle_chunks h u chunks).1).map (fun y => lastAssistantText y.2)) := by
  unfold Gemini3.handle_chunks
  rw [if_neg hu]
  dsimp only
  rw [List.map_cons, List.map_append]
  rw [stream_loop_observed chunks h u ""]
  rw [show (List.map (fun (y : String × List Turn) => lastAssistantText y.2)
        [("", (Gemini3.stream_loop (h ++ [(u, some "")]) "" chunks).2)])
      = [lastAssistantText (Gemini3.stream_loop (h ++ [(u, some "")]) "" chunks).2]
    from rfl]
  rw [stream_loop_final chunks h u "", lastAssistantText_concat h u "",
    lastAssistantText_concat h u ("" ++ sjoin chunks)]
  rw [show ("" : String) :: (accSeq "" chunks ++ ["" ++ sjoin chunks])
      = (("" : String) :: accSeq "" chunks) ++ ["" ++ sjoin chunks] from rfl]
  refine List.chain'_append.mpr ⟨chain'_accSeq chunks "", List.chain'_singleton _, ?_⟩
  intro x hx y hy
  rw [getLast?_accSeq] at hx
  simp only [Option.mem_def, Option.some_inj, List.head?_cons] at hx hy
  subst hx
  subst hy
  exact ⟨"", by simp⟩

/-- Witness for `streaming_assistant_monotone` at a concrete two-chunk
stream. -/
theorem streaming_assistant_monotone_witness :
    List.Chain' (fun a b => ∃ t, b = a ++ t)
      (((Gemini3.handle_chunks [] "hi" ["a", "b"]).1).map (fun y => lastAssistantText y.2)) :=
  streaming_assistant_monotone [] "hi" ["a", "b"] (by decide)
